import Mathlib

/-!
Verification of the KrishiMitra AI NLP core (`app.py`).

The repository's single source file defines two classes:
`IndicBERTProcessor` (language detection, intent classification, entity
extraction) and `RAGEngine` (static knowledge base, context retrieval,
per-intent response generation).  This file embeds them shallowly.

Modelling conventions:
* Python strings are `String`; `str.lower()` maps `Char.toLower` over the
  characters (the repository's pattern tables are ASCII or Devanagari,
  where ASCII lower-casing agrees with Python's).
* Every regex in the repository is an alternation of literal substrings.
  `re.findall` over such a pattern is `countMatches` (leftmost,
  non-overlapping, alternatives tried in declaration order) and
  `re.search` is `searchMatches`.
* Python numbers are modelled as `ℚ`.  Intent scores `0.3 * matches` are
  kept as exact match counts (`Nat`) inside the classifier; equal counts
  produce bitwise-equal Python floats and distinct counts produce
  distinct, order-respecting floats at the magnitudes reachable here, so
  maximum selection and tie-breaking coincide with the float computation.
  The returned confidence is the exact rational `min (count * 3/10) 1`.
* Python dicts with a fixed key set are structures; optional keys are
  `Option` fields; `dict.get(k, default)` is `Option.getD`.
-/

/-- Lower-cased character stream of a Python string, i.e. `text.lower()`
viewed as a list of characters. -/
def toLowerTxt (s : String) : List Char :=
  s.data.map Char.toLower

/-- First alternative of a literal alternation that matches at the head of
`s`: regex alternation tries the alternatives left to right and commits to
the first that succeeds. -/
def firstAlt (alts : List String) (s : List Char) : Option String :=
  alts.find? (fun a => a.data.isPrefixOf s)

/-- Scanner behind `countMatches`.  Each step consumes at least one
character, so fuel equal to the length of the scanned list makes the
recursion structural (on the fuel) without changing the result. -/
def countMatchesAux (alts : List String) : Nat → List Char → Nat
  | 0, _ => 0
  | _, [] => 0
  | fuel + 1, c :: cs =>
    match firstAlt alts (c :: cs) with
    | none => countMatchesAux alts fuel cs
    | some a => 1 + countMatchesAux alts fuel (cs.drop (a.length - 1))

/-- Number of matches `re.findall(a1|...|ak, s)` returns for an alternation
of literal strings: scan left to right, count non-overlapping matches,
taking at each position the first alternative that matches. -/
def countMatches (alts : List String) (s : List Char) : Nat :=
  countMatchesAux alts s.length s

/-- Whether `re.search(a1|...|ak, s)` succeeds for an alternation of
literal strings: some alternative matches at some position. -/
def searchMatches (alts : List String) (s : List Char) : Bool :=
  match s with
  | [] => false
  | c :: cs => (firstAlt alts (c :: cs)).isSome || searchMatches alts cs

namespace IndicBERTProcessor

def supported_languages : List String :=
  ["hi", "en", "pa", "bn", "te", "mr", "gu", "ta"]

/-- The `intent_patterns` table: each intent owns two regexes, each an
alternation of literal substrings, in the source's declaration order. -/
def intent_patterns : List (String × List (List String)) :=
  [ ("weather",
      [["barish", "rain", "mausam", "weather", "paani", "water", "baarish"],
       ["humidity", "temperature", "wind", "climate"]]),
    ("irrigation",
      [["sinchai", "irrigation", "paani dena", "watering"],
       ["kab paani de", "when to water", "irrigation timing"]]),
    ("market",
      [["mandi", "price", "rate", "bhav", "market", "sell", "bechna"],
       ["commodity price", "market rate", "selling price"]]),
    ("fertilizer",
      [["khad", "fertilizer", "urvarak", "nutrients", "manure"],
       ["NPK", "urea", "phosphate", "potash", "organic"]]),
    ("pest",
      [["keeda", "pest", "insect", "disease", "bimari", "fungus"],
       ["crop disease", "plant protection", "pesticide"]]),
    ("scheme",
      [["yojana", "scheme", "subsidy", "government", "sarkar"],
       ["loan", "credit", "insurance", "financial help"]]),
    ("crop",
      [["fasal", "crop", "bija", "seed", "planting", "cultivation"],
       ["sowing", "harvesting", "crop calendar", "variety"]]) ]

/-- Characters the source's `[ऀ-ॿ]` class accepts. -/
def isDevanagariChar (c : Char) : Bool :=
  0x900 ≤ c.toNat && c.toNat ≤ 0x97F

/-- Characters the source's `[a-zA-Z]` class accepts. -/
def isLatinLetter (c : Char) : Bool :=
  ('a' ≤ c && c ≤ 'z') || ('A' ≤ c && c ≤ 'Z')

/-- `detect_language`: compare the Devanagari-character count against the
Latin-letter count, as the source does via two `re.findall` lists. -/
def detect_language (text : String) : String :=
  let hindi_chars := text.data.filter isDevanagariChar
  let english_chars := text.data.filter isLatinLetter
  if english_chars.length < hindi_chars.length then "hi"
  else if 0 < english_chars.length then "en"
  else "hi"

/-- Match count of one intent: total `re.findall` matches over its two
patterns (the source multiplies this count by 0.3 to get the score). -/
def intentMatchCount (text : List Char) (pats : List (List String)) : Nat :=
  (pats.map (fun p => countMatches p text)).sum

/-- The `intent_scores` dict, in insertion order, with scores kept as
exact match counts. -/
def intentScores (text : String) : List (String × Nat) :=
  intent_patterns.map (fun p => (p.1, intentMatchCount (toLowerTxt text) p.2))

/-- Maximum score of the table (`max(intent_scores.values())`, with 0 for
an empty table). -/
def maxScores (l : List (String × Nat)) : Nat :=
  l.foldr (fun p m => max p.2 m) 0

/-- `max(intent_scores, key=intent_scores.get)`: fold keeping the current
best, replacing it only on a strictly greater score, so the first
declared intent wins ties. -/
def pickBest (best : String × Nat) (l : List (String × Nat)) : String × Nat :=
  match l with
  | [] => best
  | p :: ps => pickBest (if best.2 < p.2 then p else best) ps

/-- `extract_intent`: score every intent, return `("general", 0.5)` when
the table is empty or every score is 0, otherwise the first maximal
intent with confidence `min(score, 1.0)`. -/
def extract_intent (text : String) : String × ℚ :=
  let scores := intentScores text
  if scores.isEmpty || (maxScores scores == 0) then ("general", 1/2)
  else
    let best := pickBest (scores.headD ("general", 0)) scores.tail
    (best.1, min ((best.2 : ℚ) * (3 / 10)) 1)

end IndicBERTProcessor

/-- Result of `extract_entities`: a dict with up to four keys, each key an
`Option` field.  The source populates `quantity` and `unit` from the same
regex match, so they are represented here exactly as the two dict entries
the source writes. -/
structure Entities where
  crop : Option String := none
  location : Option String := none
  quantity : Option String := none
  unit : Option String := none
deriving DecidableEq, Repr

namespace IndicBERTProcessor

/-- The `crops` pattern table of `extract_entities`, in declaration
order. -/
def crops : List (String × List String) :=
  [ ("wheat", ["gehun", "wheat", "गेहूं"]),
    ("rice", ["chawal", "rice", "धान", "चावल"]),
    ("cotton", ["kapas", "cotton", "कपास"]),
    ("sugarcane", ["ganna", "sugarcane", "गन्ना"]),
    ("potato", ["aloo", "potato", "आलू"]),
    ("tomato", ["tamatar", "tomato", "टमाटर"]),
    ("onion", ["pyaz", "onion", "प्याज"]) ]

/-- The `locations` pattern table of `extract_entities`, in declaration
order. -/
def locations : List (String × List String) :=
  [ ("delhi", ["delhi", "दिल्ली"]),
    ("punjab", ["punjab", "पंजाब"]),
    ("haryana", ["haryana", "हरियाणा"]),
    ("up", ["uttar pradesh", "up", "उत्तर प्रदेश"]),
    ("bihar", ["bihar", "बिहार"]),
    ("maharashtra", ["maharashtra", "महाराष्ट्र"]) ]

/-- First table entry whose pattern matches (`re.search`) the lower-cased
text; the source's loop breaks at the first hit. -/
def findEntity (table : List (String × List String)) (s : List Char) : Option String :=
  (table.find? (fun p => searchMatches p.2 s)).map Prod.fst

/-- ASCII decimal digits, the characters the quantity regex class `\d`
accepts on the inputs in scope here (the source's `re` module would also
accept other Unicode decimal digits). -/
def isAsciiDigit (c : Char) : Bool :=
  '0' ≤ c && c ≤ '9'

/-- ASCII whitespace, the characters the quantity regex class `\s`
accepts on the inputs in scope here. -/
def isSpaceChar (c : Char) : Bool :=
  c = ' ' || c = '\t' || c = '\n' || c = '\r'

/-- Unit alternatives of the quantity regex, in declaration order. -/
def unitWords : List String :=
  ["kg", "quintal", "ton", "acre", "hectare"]

/-- Match of the quantity regex anchored at the head of `s`: one or more
digits (greedy), optional whitespace (greedy), then the first matching
unit alternative.  Greediness needs no backtracking here because no unit
starts with a digit or whitespace. -/
def quantityAt (s : List Char) : Option (String × String) :=
  let ds := s.takeWhile isAsciiDigit
  if ds.isEmpty then none
  else
    match firstAlt unitWords ((s.dropWhile isAsciiDigit).dropWhile isSpaceChar) with
    | some u => some (String.mk ds, u)
    | none => none

/-- Leftmost match of the quantity regex, as `re.search` finds it. -/
def searchQuantity (s : List Char) : Option (String × String) :=
  match s with
  | [] => none
  | c :: cs =>
    match quantityAt (c :: cs) with
    | some r => some r
    | none => searchQuantity cs

/-- `extract_entities`: crop and location by first-match table scan,
quantity and unit from one regex search, each over the lower-cased
text. -/
def extract_entities (text : String) : Entities :=
  let lower := toLowerTxt text
  let cropE := findEntity crops lower
  let locE := findEntity locations lower
  match searchQuantity lower with
  | some qu => { crop := cropE, location := locE, quantity := some qu.1, unit := some qu.2 }
  | none => { crop := cropE, location := locE, quantity := none, unit := none }

end IndicBERTProcessor

namespace RAGEngine

/-- Per-crop record of the knowledge base (`knowledge_base['crops'][name]`). -/
structure CropInfo where
  sowing_season : String
  harvesting : String
  water_requirement : String
  fertilizer : String
  varieties : List String
  diseases : List String
  ideal_temp : String
  soil_ph : String
deriving DecidableEq, Repr

/-- The `crops` table of `_load_knowledge_base`: exactly wheat and rice. -/
def kbCrops : List (String × CropInfo) :=
  [ ("wheat",
      { sowing_season := "Rabi (October-December)"
        harvesting := "April-May"
        water_requirement := "Medium (4-6 irrigations)"
        fertilizer := "NPK 120:60:40 kg/hectare"
        varieties := ["HD-2967", "PBW-343", "DBW-17"]
        diseases := ["Rust", "Bunt", "Leaf blight"]
        ideal_temp := "15-25°C"
        soil_ph := "6.0-7.5" }),
    ("rice",
      { sowing_season := "Kharif (May-July)"
        harvesting := "October-December"
        water_requirement := "High (standing water)"
        fertilizer := "NPK 100:50:50 kg/hectare"
        varieties := ["Pusa-44", "IR-64", "Swarna"]
        diseases := ["Blast", "Sheath blight", "Brown spot"]
        ideal_temp := "20-35°C"
        soil_ph := "5.5-7.0" }) ]

/-- Membership test plus lookup, as `crop in ... and ...[crop]` do. -/
def kbLookupCrop (crop : String) : Option CropInfo :=
  (kbCrops.find? (fun p => p.1 == crop)).map Prod.snd

/-- Values of `knowledge_base['weather_guidelines']['irrigation']`, in
insertion order (`list(weather_guide.values())`). -/
def irrigationGuidelineValues : List String :=
  [ "Delay irrigation if humidity >80%",
    "Skip irrigation if rain expected within 24 hours",
    "Best irrigation time: early morning or evening" ]

/-- `knowledge_base['market_insights']['selling_tips']`. -/
def sellingTips : List String :=
  [ "Monitor MSP announcements",
    "Check multiple mandis",
    "Consider storage costs",
    "Track festival seasons" ]

/-- The context dict built by `retrieve_context`. -/
structure Context where
  sources : List String := []
  facts : List String := []
  recommendations : List String := []
deriving DecidableEq, Repr

/-- Python `str.title()` restricted to the single-word crop names it is
applied to: upper-case the first character, lower-case the rest. -/
def titleWord (s : String) : String :=
  match s.data with
  | [] => ""
  | c :: cs => String.mk (c.toUpper :: cs.map Char.toLower)

/-- Crop step of `retrieve_context`: when a crop entity is present and
found in the knowledge base, append its three fact strings and a source
label. -/
def cropContextStep (entities : Entities) (ctx : Context) : Context :=
  match entities.crop with
  | none => ctx
  | some crop =>
    match kbLookupCrop crop with
    | none => ctx
    | some info =>
      { ctx with
        facts := ctx.facts ++
          [ "Sowing season: " ++ info.sowing_season,
            "Water requirement: " ++ info.water_requirement,
            "Recommended fertilizer: " ++ info.fertilizer ],
        sources := ctx.sources ++ ["Crop Database - " ++ titleWord crop] }

/-- Intent step of `retrieve_context`: irrigation appends the guideline
values and a source; market appends the selling tips and a source. -/
def intentContextStep (intent : String) (ctx : Context) : Context :=
  if intent == "irrigation" then
    { ctx with
      recommendations := ctx.recommendations ++ irrigationGuidelineValues,
      sources := ctx.sources ++ ["Irrigation Best Practices"] }
  else if intent == "market" then
    { ctx with
      facts := ctx.facts ++ sellingTips,
      sources := ctx.sources ++ ["Market Intelligence"] }
  else ctx

/-- `retrieve_context`: start from the empty context, run the crop step,
then the intent step.  The query argument is accepted and unused, as in
the source. -/
def retrieve_context (intent : String) (entities : Entities) (query : String) : Context :=
  let _ := query
  intentContextStep intent (cropContextStep entities {})

/-- `real_time_data['weather']['current']`, all fields optional. -/
structure CurrentWeather where
  temperature : Option ℚ := none
  humidity : Option ℚ := none
deriving DecidableEq, Repr

/-- `real_time_data['weather']`, itself optional in the snapshot. -/
structure WeatherBlock where
  current : Option CurrentWeather := none
deriving DecidableEq, Repr

/-- `real_time_data['market']`, all fields optional. -/
structure MarketBlock where
  price : Option ℚ := none
  change : Option String := none
deriving DecidableEq, Repr

/-- The caller-supplied snapshot; every level may be absent. -/
structure RealTimeData where
  weather : Option WeatherBlock := none
  market : Option MarketBlock := none
deriving DecidableEq, Repr

/-- `real_time_data.get('weather', {}).get('current', {})`. -/
def currentWeatherOf (rtd : RealTimeData) : CurrentWeather :=
  ((rtd.weather.getD {}).current).getD {}

/-- `weather.get('temperature', 25)`. -/
def temperatureOf (rtd : RealTimeData) : ℚ :=
  (currentWeatherOf rtd).temperature.getD 25

/-- `weather.get('humidity', 60)`. -/
def humidityOf (rtd : RealTimeData) : ℚ :=
  (currentWeatherOf rtd).humidity.getD 60

/-- `real_time_data.get('market', {}).get('price', 0)`. -/
def priceOf (rtd : RealTimeData) : ℚ :=
  (rtd.market.getD {}).price.getD 0

/-- `real_time_data.get('market', {}).get('change', 'N/A')`; the change
value is modelled as a string, which `str(change)` leaves unchanged. -/
def changeOf (rtd : RealTimeData) : String :=
  (rtd.market.getD {}).change.getD "N/A"

/-- The response dict of `generate_response`. -/
structure Response where
  primary_advice : String
  detailed_explanation : String
  action_items : List String
  confidence_score : ℚ
  sources : List String
  warnings : List String
deriving DecidableEq, Repr

/-- `_generate_weather_response`: advice text and action items are chosen
by the humidity branch; the returned dict always carries confidence 0.9. -/
def generate_weather_response (rtd : RealTimeData) : String × List String × ℚ :=
  let temp := temperatureOf rtd
  let humidity := humidityOf rtd
  let advice := "Current conditions: " ++ toString temp ++ "°C, " ++
    toString humidity ++ "% humidity. "
  let branch : String × List String :=
    if 80 < humidity then
      (advice ++ "High humidity detected. Delay irrigation and avoid fungicide spray.",
       ["Skip irrigation today", "Monitor for fungal diseases"])
    else if humidity < 40 then
      (advice ++ "Low humidity. Increase irrigation frequency.",
       ["Provide extra watering", "Mulch around plants"])
    else
      (advice ++ "Good conditions for normal farming activities.",
       ["Continue regular irrigation", "Good time for field operations"])
  (branch.1, branch.2, 9/10)

/-- `_generate_market_response`: rising-price advice exactly when the
change string contains a literal plus sign; confidence 0.8. -/
def generate_market_response (entities : Entities) (rtd : RealTimeData) :
    String × List String × ℚ :=
  let price := priceOf rtd
  let change := changeOf rtd
  let crop := entities.crop.getD "your crop"
  let advice := "Current " ++ crop ++ " price: ₹" ++ toString price ++
    "/quintal (" ++ change ++ "). "
  let branch : String × List String :=
    if change.data.contains '+' then
      (advice ++ "Prices are rising. Good time to sell.",
       ["Sell immediately if ready", "Check nearby mandis for best rates"])
    else
      (advice ++ "Prices declining. Consider waiting if possible.",
       ["Store safely if possible", "Monitor price trends for 1 week"])
  (branch.1, branch.2, 8/10)

/-- `_generate_fertilizer_response`: crop defaults to wheat; a known crop
gets its recipe with a temperature branch, an unknown crop the generic
NPK recommendation; confidence 0.85 in every case. -/
def generate_fertilizer_response (entities : Entities) (rtd : RealTimeData) :
    String × List String × ℚ :=
  let crop := entities.crop.getD "wheat"
  let branch : String × List String :=
    match kbLookupCrop crop with
    | some info =>
      let advice := "For " ++ crop ++ ": Apply " ++ info.fertilizer ++ ". "
      if 30 < temperatureOf rtd then
        (advice ++ "High temperature - apply in evening.",
         ["Apply after 5 PM", "Water lightly after application"])
      else
        (advice ++ "Good conditions for fertilizer application.",
         ["Apply in morning hours", "Incorporate into soil"])
    | none =>
      ("General fertilizer recommendation: NPK 120:60:60 kg/hectare",
       ["Soil test recommended", "Split application advised"])
  (branch.1, branch.2, 85/100)

/-- Warnings attached by the pest builder.  The source file is truncated
inside this list after "Use protective"; modelled from the spec: the pest
builder "always attaches warnings about label reading and protective
measures", so the second string is completed as protective-equipment
text. -/
def pestWarnings : List String :=
  ["Always read pesticide labels", "Use protective equipment while spraying"]

/-- `_generate_pest_response`: advice and actions follow the humidity
branch visible in the source.  Modelled from the spec beyond the
truncation point: the returned dict carries the warnings and no further
fields, in particular no confidence overwrite (the spec lists no pest
confidence). -/
def generate_pest_response (entities : Entities) (rtd : RealTimeData) :
    String × List String × List String :=
  let crop := entities.crop.getD "crop"
  let advice := "For " ++ crop ++ " pest management: Regular monitoring essential. "
  let branch : String × List String :=
    if 75 < humidityOf rtd then
      (advice ++ "High humidity increases fungal disease risk.",
       ["Spray preventive fungicide", "Improve air circulation"])
    else
      (advice ++ "Current conditions moderate for pest activity.",
       ["Weekly field monitoring", "Use pheromone traps"])
  (branch.1, branch.2, pestWarnings)

/-- Modelled from the spec: `_generate_scheme_response` lies past the
source file's truncation point.  Per the spec it must produce a
deterministic default advice and at least one action item, overwriting
only the fields it produces. -/
def generate_scheme_response : String × List String :=
  ("Government scheme guidance: check your eligibility for current agricultural schemes.",
   ["Visit the nearest agriculture office", "Keep land records ready"])

/-- Modelled from the spec: `_generate_general_response` (the fallback
builder, also used for the crop intent) lies past the source file's
truncation point.  Per the spec it must produce a deterministic default
advice and at least one action item, overwriting only the fields it
produces. -/
def generate_general_response : String × List String :=
  ("General farming guidance: consult your local agriculture extension office for detailed advice.",
   ["Contact local agriculture extension office"])

/-- `generate_response`: build the base response, then dispatch on the
intent; each builder overwrites exactly the fields its dict carries. -/
def generate_response (intent : String) (entities : Entities) (context : Context)
    (real_time_data : RealTimeData) : Response :=
  let response : Response :=
    { primary_advice := ""
      detailed_explanation := ""
      action_items := []
      confidence_score := 85/100
      sources := context.sources
      warnings := [] }
  if intent = "weather" ∨ intent = "irrigation" then
    let r := generate_weather_response real_time_data
    { response with primary_advice := r.1, action_items := r.2.1, confidence_score := r.2.2 }
  else if intent = "market" then
    let r := generate_market_response entities real_time_data
    { response with primary_advice := r.1, action_items := r.2.1, confidence_score := r.2.2 }
  else if intent = "fertilizer" then
    let r := generate_fertilizer_response entities real_time_data
    { response with primary_advice := r.1, action_items := r.2.1, confidence_score := r.2.2 }
  else if intent = "pest" then
    let r := generate_pest_response entities real_time_data
    { response with primary_advice := r.1, action_items := r.2.1, warnings := r.2.2 }
  else if intent = "scheme" then
    let r := generate_scheme_response
    { response with primary_advice := r.1, action_items := r.2 }
  else
    let r := generate_general_response
    { response with primary_advice := r.1, action_items := r.2 }

end RAGEngine

open IndicBERTProcessor RAGEngine

/-- Devanagari-character count of a text, as the spec words the
detection rule. -/
def devanagariCount (text : String) : Nat :=
  text.data.countP isDevanagariChar

/-- Latin-letter count of a text, as the spec words the detection rule. -/
def latinCount (text : String) : Nat :=
  text.data.countP isLatinLetter

/-- C4: for every input text, `detect_language` returns "hi" when the
Devanagari count exceeds the Latin count, "en" otherwise when at least
one Latin letter is present, and "hi" when neither script occurs; it
always returns one of these two language codes. -/
theorem detect_language_total_rule (text : String) :
    detect_language text =
      (if latinCount text < devanagariCount text then "hi"
       else if 0 < latinCount text then "en" else "hi") ∧
    (detect_language text = "hi" ∨ detect_language text = "en") := by
  have h1 : devanagariCount text = (text.data.filter isDevanagariChar).length := by
    simp [devanagariCount, List.countP_eq_length_filter]
  have h2 : latinCount text = (text.data.filter isLatinLetter).length := by
    simp [latinCount, List.countP_eq_length_filter]
  constructor
  · simp only [detect_language, h1, h2]
  · simp only [detect_language]
    split_ifs <;> simp

/-- C8: `extract_entities "mujhe 5 kg aloo chahiye"` yields exactly crop
potato, quantity "5", unit "kg" (and no location); and for every text the
quantity and unit fields are present together or absent together. -/
theorem extract_entities_potato_and_pairing :
    extract_entities "mujhe 5 kg aloo chahiye" =
      { crop := some "potato", location := none,
        quantity := some "5", unit := some "kg" } ∧
    ∀ text : String,
      (extract_entities text).quantity.isSome = (extract_entities text).unit.isSome := by
  refine ⟨by decide, ?_⟩
  intro text
  simp only [extract_entities]
  cases h : searchQuantity (toLowerTxt text) <;> simp [h]

/-- C1 (counterexample): the claim that `extract_intent "kab paani de"`
returns intent `irrigation` with confidence at least 0.3 is false: the
code returns intent `weather` (weather and irrigation tie at one pattern
match each, and the first declared intent wins the tie). -/
theorem extract_intent_kab_paani_de_not_irrigation :
    ¬ ((extract_intent "kab paani de").1 = "irrigation" ∧
       (3/10 : ℚ) ≤ (extract_intent "kab paani de").2) := by
  have h : intentScores "kab paani de" =
      [("weather", 1), ("irrigation", 1), ("market", 0), ("fertilizer", 0),
       ("pest", 0), ("scheme", 0), ("crop", 0)] := by decide
  have hb : pickBest ("weather", 1)
      [("irrigation", 1), ("market", 0), ("fertilizer", 0),
       ("pest", 0), ("scheme", 0), ("crop", 0)] = ("weather", 1) := by decide
  have he : (extract_intent "kab paani de").1 = "weather" := by
    simp only [extract_intent, h]
    norm_num [maxScores, hb]
  rw [he]
  rintro ⟨hc, -⟩
  exact absurd hc (by decide)

/-- C1 (amended): `extract_intent "kab paani de"` returns the intent
`weather` with confidence 3/10 (hence at least 0.3): the text matches one
weather pattern ("paani") and one irrigation pattern ("kab paani de"),
the two intents tie, and the first declared intent wins. -/
theorem extract_intent_kab_paani_de_weather :
    extract_intent "kab paani de" = ("weather", 3/10) ∧
    (3/10 : ℚ) ≤ (extract_intent "kab paani de").2 := by
  have h : intentScores "kab paani de" =
      [("weather", 1), ("irrigation", 1), ("market", 0), ("fertilizer", 0),
       ("pest", 0), ("scheme", 0), ("crop", 0)] := by decide
  have hb : pickBest ("weather", 1)
      [("irrigation", 1), ("market", 0), ("fertilizer", 0),
       ("pest", 0), ("scheme", 0), ("crop", 0)] = ("weather", 1) := by decide
  have he : extract_intent "kab paani de" = ("weather", 3/10) := by
    simp only [extract_intent, h]
    norm_num [maxScores, hb, min_def]
  refine ⟨he, ?_⟩
  rw [he]

/-- Auxiliary: a table whose entries all score zero has maximum score
zero. -/
theorem maxScores_eq_zero_of_all_zero (l : List (String × Nat))
    (h : ∀ p ∈ l, p.2 = 0) : maxScores l = 0 := by
  induction l with
  | nil => simp [maxScores]
  | cons p ps ih =>
    simp only [maxScores, List.foldr] at ih ⊢
    have hp := h p (List.mem_cons_self p ps)
    have hps := ih (fun q hq => h q (List.mem_cons_of_mem p hq))
    omega

/-- C3: whenever every intent's score is zero, `extract_intent` returns
exactly `("general", 0.5)`; the witness instantiates this at
"xyz qwerty". -/
theorem extract_intent_all_zero_general (text : String)
    (h : ∀ p ∈ intentScores text, p.2 = 0) :
    extract_intent text = ("general", 1/2) := by
  have hm : maxScores (intentScores text) = 0 :=
    maxScores_eq_zero_of_all_zero _ h
  simp only [extract_intent, hm]
  norm_num

/-- Witness for C3 at the concrete input "xyz qwerty". -/
theorem extract_intent_all_zero_general_witness :
    (∀ p ∈ intentScores "xyz qwerty", p.2 = 0) ∧
    extract_intent "xyz qwerty" = ("general", 1/2) :=
  ⟨by decide, extract_intent_all_zero_general "xyz qwerty" (by decide)⟩

/-- First intent in declaration order whose score equals `m`, as the
spec words the tie-break rule ("the one appearing first in the fixed
declaration order wins"). -/
def firstWithScore : List (String × Nat) → Nat → Option String
  | [], _ => none
  | p :: ps, m => if p.2 = m then some p.1 else firstWithScore ps m

/-- Auxiliary: the score of the entry `pickBest` selects is the maximum
of the seed's score and the table's maximum. -/
theorem pickBest_snd (ps : List (String × Nat)) :
    ∀ best : String × Nat,
      (pickBest best ps).2 = max best.2 (maxScores ps) := by
  induction ps with
  | nil =>
    intro best
    simp [pickBest, maxScores]
  | cons p ps ih =>
    intro best
    simp only [pickBest, maxScores, List.foldr] at ih ⊢
    rw [ih]
    rcases Nat.lt_or_ge best.2 p.2 with h | h
    · rw [if_pos h]
      omega
    · rw [if_neg (Nat.not_lt.mpr h)]
      omega

/-- Auxiliary: `pickBest` (strict-greater replacement, Python's `max`)
selects the first entry of the table attaining the maximal score. -/
theorem pickBest_first (ps : List (String × Nat)) :
    ∀ best : String × Nat,
      firstWithScore (best :: ps) (pickBest best ps).2 =
        some (pickBest best ps).1 := by
  induction ps with
  | nil =>
    intro best
    simp [pickBest, firstWithScore]
  | cons p ps ih =>
    intro best
    by_cases hbp : best.2 < p.2
    · have hz : pickBest best (p :: ps) = pickBest p ps := by
        simp [pickBest, hbp]
      have hlt : best.2 < (pickBest p ps).2 := by
        have h2 := pickBest_snd ps p
        omega
      rw [hz]
      have hstep : firstWithScore (best :: p :: ps) (pickBest p ps).2 =
          firstWithScore (p :: ps) (pickBest p ps).2 := by
        simp only [firstWithScore]
        rw [if_neg (Nat.ne_of_lt hlt)]
      rw [hstep]
      exact ih p
    · have hz : pickBest best (p :: ps) = pickBest best ps := by
        simp [pickBest, hbp]
      rw [hz]
      have hple : p.2 ≤ best.2 := Nat.not_lt.mp hbp
      have hble : best.2 ≤ (pickBest best ps).2 := by
        have h2 := pickBest_snd ps best
        omega
      have h1 := ih best
      by_cases hbm : best.2 = (pickBest best ps).2
      · simp only [firstWithScore] at h1 ⊢
        rw [if_pos hbm] at h1 ⊢
        exact h1
      · have hpm : ¬ p.2 = (pickBest best ps).2 := by omega
        simp only [firstWithScore] at h1 ⊢
        rw [if_neg hbm] at h1
        rw [if_neg hbm, if_neg hpm]
        exact h1

/-- C2: for every input text on which some intent scores positively, the
intent `extract_intent` returns is the first intent in the fixed
declaration order (weather, irrigation, market, fertilizer, pest,
scheme, crop) attaining the maximum score; in particular ties are broken
toward the earlier-declared intent, so the result is uniquely
determined.  The witness instantiates this at "kab paani de", a genuine
two-way tie. -/
theorem extract_intent_first_declared_wins (text : String)
    (h : 0 < maxScores (intentScores text)) :
    firstWithScore (intentScores text) (maxScores (intentScores text)) =
      some (extract_intent text).1 := by
  obtain ⟨s, rest, hsr⟩ : ∃ s rest, intentScores text = s :: rest :=
    ⟨_, _, rfl⟩
  rw [hsr] at h ⊢
  have hne : (maxScores (s :: rest) == 0) = false :=
    beq_eq_false_iff_ne.mpr (Nat.pos_iff_ne_zero.mp h)
  have hmax : maxScores (s :: rest) = max s.2 (maxScores rest) := by
    simp [maxScores]
  have hp := pickBest_snd rest s
  simp only [extract_intent, hsr, List.isEmpty_cons, hne, Bool.or_self,
    Bool.false_or, if_false, List.headD_cons, List.tail_cons]
  rw [hmax, ← hp]
  exact pickBest_first rest s

/-- Witness for C2 at "kab paani de", where weather and irrigation tie. -/
theorem extract_intent_first_declared_wins_witness :
    0 < maxScores (intentScores "kab paani de") ∧
    firstWithScore (intentScores "kab paani de")
        (maxScores (intentScores "kab paani de")) =
      some (extract_intent "kab paani de").1 :=
  ⟨by decide, extract_intent_first_declared_wins "kab paani de" (by decide)⟩

/-- C5: for intent weather or irrigation, whenever the (defaulted)
humidity exceeds 80, the response carries exactly the two high-humidity
action items, confidence 0.9, and a primary advice ending in the
high-humidity warning text. -/
theorem weather_high_humidity_response (intent : String)
    (hintent : intent = "weather" ∨ intent = "irrigation")
    (entities : Entities) (context : Context) (rtd : RealTimeData)
    (hhum : (80 : ℚ) < humidityOf rtd) :
    (generate_response intent entities context rtd).action_items =
      ["Skip irrigation today", "Monitor for fungal diseases"] ∧
    (generate_response intent entities context rtd).confidence_score = 9/10 ∧
    (generate_response intent entities context rtd).primary_advice =
      "Current conditions: " ++ toString (temperatureOf rtd) ++ "°C, " ++
        toString (humidityOf rtd) ++ "% humidity. " ++
        "High humidity detected. Delay irrigation and avoid fungicide spray." := by
  refine ⟨?_, ?_, ?_⟩ <;>
    simp only [generate_response, generate_weather_response, if_pos hintent, if_pos hhum]

/-- Snapshot with humidity 85, used to instantiate C5. -/
def rtdHighHumidity : RealTimeData :=
  { weather := some { current := some { temperature := some 28, humidity := some 85 } } }

/-- Witness for C5 at intent "weather" and humidity 85. -/
theorem weather_high_humidity_response_witness :
    ((("weather" : String) = "weather" ∨ ("weather" : String) = "irrigation") ∧
      (80 : ℚ) < humidityOf rtdHighHumidity) ∧
    ((generate_response "weather" {} {} rtdHighHumidity).action_items =
      ["Skip irrigation today", "Monitor for fungal diseases"] ∧
     (generate_response "weather" {} {} rtdHighHumidity).confidence_score = 9/10 ∧
     (generate_response "weather" {} {} rtdHighHumidity).primary_advice =
      "Current conditions: " ++ toString (temperatureOf rtdHighHumidity) ++ "°C, " ++
        toString (humidityOf rtdHighHumidity) ++ "% humidity. " ++
        "High humidity detected. Delay irrigation and avoid fungicide spray.") :=
  ⟨⟨Or.inl rfl, by decide⟩,
   weather_high_humidity_response "weather" (Or.inl rfl) {} {} rtdHighHumidity (by decide)⟩

/-- C6: for intent market, the rising-price action items are returned
exactly when the change string contains a literal plus sign, the
declining-price items otherwise, and the confidence is 0.8 in both
cases. -/
theorem market_actions_plus_rule (entities : Entities) (context : Context)
    (rtd : RealTimeData) :
    (generate_response "market" entities context rtd).action_items =
      (if (changeOf rtd).data.contains '+' then
        ["Sell immediately if ready", "Check nearby mandis for best rates"]
       else
        ["Store safely if possible", "Monitor price trends for 1 week"]) ∧
    (generate_response "market" entities context rtd).confidence_score = 8/10 := by
  have h1 : ¬ (("market" : String) = "weather" ∨ ("market" : String) = "irrigation") := by
    decide
  constructor
  · cases hc : (changeOf rtd).data.contains '+' <;> simp at hc <;>
      simp [generate_response, generate_market_response, h1, hc]
  · simp [generate_response, generate_market_response, h1]

/-- Snapshot with every missing real-time field replaced by its
documented default (temperature 25, humidity 60, price 0, change "N/A"),
as the spec words the degraded-input rule. -/
def withDefaultsFilled (rtd : RealTimeData) : RealTimeData :=
  { weather :=
      some { current := some { temperature := some (temperatureOf rtd),
                               humidity := some (humidityOf rtd) } },
    market := some { price := some (priceOf rtd), change := some (changeOf rtd) } }

theorem temperatureOf_filled (rtd : RealTimeData) :
    temperatureOf (withDefaultsFilled rtd) = temperatureOf rtd := rfl

theorem humidityOf_filled (rtd : RealTimeData) :
    humidityOf (withDefaultsFilled rtd) = humidityOf rtd := rfl

theorem priceOf_filled (rtd : RealTimeData) :
    priceOf (withDefaultsFilled rtd) = priceOf rtd := rfl

theorem changeOf_filled (rtd : RealTimeData) :
    changeOf (withDefaultsFilled rtd) = changeOf rtd := rfl

/-- C7: for every intent and every partial or empty snapshot,
`generate_response` is total (it is a Lean function) and behaves exactly
as on the snapshot whose absent fields are replaced by the fixed
defaults temperature 25, humidity 60, price 0, change "N/A". -/
theorem generate_response_defaults (intent : String) (entities : Entities)
    (context : Context) (rtd : RealTimeData) :
    generate_response intent entities context rtd =
      generate_response intent entities context (withDefaultsFilled rtd) := by
  simp only [generate_response, generate_weather_response, generate_market_response,
    generate_fertilizer_response, generate_pest_response,
    temperatureOf_filled, humidityOf_filled, priceOf_filled, changeOf_filled]

/-- C9: for every intent, entity set, context and snapshot, the response
keeps the base values of the fields its builder does not produce:
detailed explanation stays empty, sources are exactly the context's
sources, warnings are empty except for the pest builder's fixed list,
and the confidence is the base 0.85 except where a builder overwrites it
(0.9 for weather/irrigation, 0.8 for market; the fertilizer builder
overwrites it with the same 0.85). -/
theorem generate_response_frame (intent : String) (entities : Entities)
    (context : Context) (rtd : RealTimeData) :
    (generate_response intent entities context rtd).detailed_explanation = "" ∧
    (generate_response intent entities context rtd).sources = context.sources ∧
    (generate_response intent entities context rtd).warnings =
      (if intent = "pest" then pestWarnings else []) ∧
    (generate_response intent entities context rtd).confidence_score =
      (if intent = "weather" ∨ intent = "irrigation" then (9/10 : ℚ)
       else if intent = "market" then 8/10 else 85/100) := by
  by_cases h1 : intent = "weather" ∨ intent = "irrigation"
  · have hp : ¬ intent = "pest" := by
      rcases h1 with h | h <;> subst h <;> decide
    simp [generate_response, generate_weather_response, h1, hp]
  · by_cases h2 : intent = "market"
    · subst h2
      simp [generate_response, generate_market_response, h1]
    · by_cases h3 : intent = "fertilizer"
      · subst h3
        simp [generate_response, generate_fertilizer_response, h1]
      · by_cases h4 : intent = "pest"
        · subst h4
          simp [generate_response, generate_pest_response, h1]
        · by_cases h5 : intent = "scheme"
          · subst h5
            simp [generate_response, generate_scheme_response, h1]
          · simp [generate_response, generate_general_response, h1, h2, h3, h4, h5]

/-- Auxiliary: the C10 conclusions, given only that the crop is absent
from the knowledge base. -/
theorem unknown_crop_core (crop : String) (hlook : kbLookupCrop crop = none)
    (entities : Entities) (hent : entities.crop = some crop)
    (intent query : String) (context : Context) (rtd : RealTimeData) :
    retrieve_context intent entities query =
      retrieve_context intent { entities with crop := none } query ∧
    (generate_response "fertilizer" entities context rtd).primary_advice =
      "General fertilizer recommendation: NPK 120:60:60 kg/hectare" ∧
    (generate_response "fertilizer" entities context rtd).action_items =
      ["Soil test recommended", "Split application advised"] := by
  have hf : ¬ (("fertilizer" : String) = "weather" ∨
      ("fertilizer" : String) = "irrigation") := by decide
  refine ⟨?_, ?_, ?_⟩
  · simp [retrieve_context, cropContextStep, hent, hlook]
  · simp [generate_response, generate_fertilizer_response, hf, hent, hlook]
  · simp [generate_response, generate_fertilizer_response, hf, hent, hlook]

/-- C10: the knowledge base's crop table holds exactly wheat and rice
while the entity extractor's table holds seven crops; for every
extracted crop among cotton, sugarcane, potato, tomato and onion,
`retrieve_context` adds nothing beyond the crop-free context (no crop
facts, no crop-database source), and the fertilizer builder takes the
generic branch with the NPK 120:60:60 advice and its two action
items. -/
theorem unknown_crop_no_context_generic_fertilizer (crop : String)
    (hcrop : crop ∈ (["cotton", "sugarcane", "potato", "tomato", "onion"] : List String))
    (entities : Entities) (hent : entities.crop = some crop)
    (intent query : String) (context : Context) (rtd : RealTimeData) :
    kbCrops.map Prod.fst = ["wheat", "rice"] ∧
    IndicBERTProcessor.crops.map Prod.fst =
      ["wheat", "rice", "cotton", "sugarcane", "potato", "tomato", "onion"] ∧
    retrieve_context intent entities query =
      retrieve_context intent { entities with crop := none } query ∧
    (generate_response "fertilizer" entities context rtd).primary_advice =
      "General fertilizer recommendation: NPK 120:60:60 kg/hectare" ∧
    (generate_response "fertilizer" entities context rtd).action_items =
      ["Soil test recommended", "Split application advised"] := by
  have hlook : kbLookupCrop crop = none := by
    fin_cases hcrop <;> decide
  exact ⟨by decide, by decide,
    unknown_crop_core crop hlook entities hent intent query context rtd⟩

/-- Witness for C10 at crop "potato". -/
theorem unknown_crop_no_context_generic_fertilizer_witness :
    (("potato" : String) ∈ (["cotton", "sugarcane", "potato", "tomato", "onion"] : List String) ∧
      ({ crop := some "potato" } : Entities).crop = some "potato") ∧
    (kbCrops.map Prod.fst = ["wheat", "rice"] ∧
     IndicBERTProcessor.crops.map Prod.fst =
       ["wheat", "rice", "cotton", "sugarcane", "potato", "tomato", "onion"] ∧
     retrieve_context "scheme" { crop := some "potato" } "kya yojana hai" =
       retrieve_context "scheme"
         { ({ crop := some "potato" } : Entities) with crop := none } "kya yojana hai" ∧
     (generate_response "fertilizer" { crop := some "potato" } {} {}).primary_advice =
       "General fertilizer recommendation: NPK 120:60:60 kg/hectare" ∧
     (generate_response "fertilizer" { crop := some "potato" } {} {}).action_items =
       ["Soil test recommended", "Split application advised"]) :=
  ⟨⟨by decide, rfl⟩,
   unknown_crop_no_context_generic_fertilizer "potato" (by decide)
     { crop := some "potato" } rfl "scheme" "kya yojana hai" {} {}⟩
